import Mathlib

/-!
Shallow embedding of the pkce-twitter backend (src/server.ts) and proofs
about its Token Guard (`withAuth`) and route handlers.  External collaborators
(the provider's OAuth endpoints, the Prisma-backed database) are modelled by
environment records whose fields give each outbound call's outcome; every
function additionally returns the ordered trace of outbound calls it made,
so "no outbound call happens" claims are statable.
-/

namespace PkceTwitter

/-- JS truthiness of an optional string request-body field:
`undefined` and the empty string are falsy. -/
def truthyStr : Option String → Bool
  | none => false
  | some s => s != ""

/-- JS truthiness of an optional numeric request-body field:
`undefined` and `0` are falsy. -/
def truthyNat : Option Nat → Bool
  | none => false
  | some n => n != 0

/-- The fixed anti-forgery state constant (`const STATE = 'twitter-auth-state'`). -/
def STATE : String := "twitter-auth-state"

/-- Request body fields read by the middleware and handlers; `none` = absent. -/
structure ReqBody where
  accessToken : Option String
  refreshToken : Option String
  expiresAt : Option Nat
  twitterId : Option String
  tweetId : Option String
deriving Repr, DecidableEq

/-- An OAuth token object as held by the sdk auth client
(`access_token`, optional `refresh_token`, `token_type`, optional `expires_at`). -/
structure OAuthToken where
  access_token : String
  refresh_token : Option String
  token_type : String
  expires_at : Option Nat
deriving Repr, DecidableEq

/-- The token triple placed in `res.locals.tokenData` and returned to the caller. -/
structure TokenData where
  accessToken : String
  refreshToken : String
  expiresAt : Option Nat
deriving Repr, DecidableEq

/-- Provider-side view of the authenticated user (`findMyUser().data`). -/
structure TwitterUserData where
  id : String
  username : Option String
  name : Option String
  profile_image_url : Option String
deriving Repr, DecidableEq

/-- A row of the `User` table (prisma model `User`). -/
structure User where
  id : Nat
  twitterId : String
  username : Option String
  name : Option String
  profileImgUrl : Option String
  accessToken : String
  refreshToken : String
  tokenExpiresAt : Nat
deriving Repr, DecidableEq

/-- A row of the append-only `UserAction` table (prisma model `UserAction`). -/
structure UserAction where
  userId : Nat
  tweetId : String
  action : String
  success : Bool
deriving Repr, DecidableEq

/-- The relational store: `User` rows and `UserAction` rows. -/
structure DB where
  users : List User
  actions : List UserAction
deriving Repr, DecidableEq

/-- `prisma.user.updateMany({where:{twitterId}, data:{...}})`:
update the token fields of every `User` row whose `twitterId` matches. -/
def userUpdateMany (db : DB) (tid : String) (newAccess newRefresh : String)
    (newExp : Nat) : DB :=
  { db with users := db.users.map fun u =>
      if u.twitterId = tid then
        { u with accessToken := newAccess, refreshToken := newRefresh,
                 tokenExpiresAt := newExp }
      else u }

/-- `prisma.user.findFirst({where:{twitterId}})`. -/
def userFindFirst (db : DB) (tid : String) : Option User :=
  db.users.find? fun u => u.twitterId == tid

/-- `prisma.userAction.create(...)`: append one row to the action log. -/
def userActionCreate (db : DB) (a : UserAction) : DB :=
  { db with actions := db.actions ++ [a] }

/-- Next autoincrement id for a created `User` row. -/
def nextUserId (db : DB) : Nat :=
  (db.users.map User.id).foldr max 0 + 1

/-- `prisma.user.upsert({where:{twitterId}, update:{...}, create:{...}})`
as performed by the OAuth callback handler. -/
def userUpsert (db : DB) (tu : TwitterUserData) (access refresh : String)
    (exp : Nat) : DB :=
  if (db.users.find? fun u => u.twitterId == tu.id).isSome then
    { db with users := db.users.map fun u =>
        if u.twitterId = tu.id then
          { u with username := tu.username, name := tu.name,
                   profileImgUrl := tu.profile_image_url,
                   accessToken := access, refreshToken := refresh,
                   tokenExpiresAt := exp }
        else u }
  else
    { db with users := db.users ++
        [{ id := nextUserId db, twitterId := tu.id, username := tu.username,
           name := tu.name, profileImgUrl := tu.profile_image_url,
           accessToken := access, refreshToken := refresh,
           tokenExpiresAt := exp }] }

/-- One outbound call (to the provider or to the database), recorded in
the order the code makes them. -/
inductive ExtCall where
  | refreshCall (refreshTokenUsed : String)
  | dbUserUpdate (twitterId : String)
  | whoAmI (accessTokenUsed : String)
  | providerLike (accessTokenUsed : String) (tweetId : String)
  | providerRetweet (accessTokenUsed : String) (tweetId : String)
  | dbFind (twitterId : String)
  | dbActionInsert
  | tokenExchange (code : String)
  | dbUpsert (twitterId : String)
  | providerRevoke (accessTokenUsed : String)
deriving Repr, DecidableEq

/-- Is this trace entry the provider refresh grant? -/
def isRefreshCall : ExtCall → Bool
  | .refreshCall _ => true
  | _ => false

/-- Is this trace entry a database call? -/
def isDbCall : ExtCall → Bool
  | .dbUserUpdate _ => true
  | .dbFind _ => true
  | .dbActionInsert => true
  | .dbUpsert _ => true
  | _ => false

/-- Environment for one `withAuth` run: the outcome of the provider refresh
grant (`authClient.refreshAccessToken()` — on success the sdk stores the
refreshed token on the auth client and returns it), and whether the
`prisma.user.updateMany` persistence call succeeds. -/
structure AuthEnv where
  refreshResult : Except String OAuthToken
  dbUpdateOk : Bool
deriving Repr

/-- What `withAuth` did with the request: reject with an error response
(the handler chain stops), or call `next()` with the authenticated client
token, the optional replacement `tokenData`, and `res.locals.twitterId`. -/
inductive AuthOutcome where
  | reject (status : Nat) (error : String)
  | proceed (clientToken : OAuthToken) (tokenData : Option TokenData)
      (localTwitterId : Option String)
deriving Repr, DecidableEq

/-- Result of one `withAuth` run. -/
structure AuthResult where
  outcome : AuthOutcome
  db : DB
  calls : List ExtCall
deriving Repr, DecidableEq

/-- Embedding of the `withAuth` middleware (src/server.ts).  Any exception
thrown inside the body — a failed refresh grant, a failed database update,
or the `BigInt(undefined)` TypeError when the refreshed token carries no
`expires_at` — is caught by the middleware's catch-all, which responds
`401 Authentication failed`. -/
def withAuth (now : Nat) (body : ReqBody) (env : AuthEnv) (db : DB) : AuthResult :=
  if truthyStr body.accessToken = false ∨ truthyStr body.refreshToken = false then
    { outcome := .reject 401 "Authentication required", db := db, calls := [] }
  else
    let accessToken := body.accessToken.getD ""
    let refreshTok := body.refreshToken.getD ""
    let tok0 : OAuthToken :=
      { access_token := accessToken, refresh_token := some refreshTok,
        token_type := "bearer", expires_at := body.expiresAt }
    if truthyNat body.expiresAt = true ∧ body.expiresAt.getD 0 ≤ now then
      match env.refreshResult with
      | .error _ =>
        { outcome := .reject 401 "Authentication failed", db := db,
          calls := [.refreshCall refreshTok] }
      | .ok rt =>
        let newRefresh :=
          match rt.refresh_token with
          | some s => if s = "" then refreshTok else s
          | none => refreshTok
        let tokenData : TokenData :=
          { accessToken := rt.access_token, refreshToken := newRefresh,
            expiresAt := rt.expires_at }
        if truthyStr body.twitterId = true then
          match rt.expires_at with
          | none =>
            { outcome := .reject 401 "Authentication failed", db := db,
              calls := [.refreshCall refreshTok] }
          | some re =>
            if env.dbUpdateOk then
              { outcome := .proceed rt (some tokenData) body.twitterId,
                db := userUpdateMany db (body.twitterId.getD "") rt.access_token
                        newRefresh re,
                calls := [.refreshCall refreshTok,
                          .dbUserUpdate (body.twitterId.getD "")] }
            else
              { outcome := .reject 401 "Authentication failed", db := db,
                calls := [.refreshCall refreshTok,
                          .dbUserUpdate (body.twitterId.getD "")] }
        else
          { outcome := .proceed rt (some tokenData) none, db := db,
            calls := [.refreshCall refreshTok] }
    else
      { outcome := .proceed tok0 none
          (if truthyStr body.twitterId = true then body.twitterId else none),
        db := db, calls := [] }

/-- The `data` field of a like/retweet response body: the provider's
payload on success, or the raw caught error on failure. -/
inductive RespData where
  | payload (p : String)
  | errData (e : String)
deriving Repr, DecidableEq

/-- The per-user counts returned by `GET /user/stats`. -/
structure Stats where
  totalActions : Nat
  likes : Nat
  retweets : Nat
  successful : Nat
  failed : Nat
deriving Repr, DecidableEq

/-- An HTTP response produced by a route handler. -/
inductive Resp where
  | httpError (status : Nat) (error : String)
  | actionOk (success : Bool) (data : RespData) (tokens : Option TokenData)
  | revokeOk (success : Bool) (response : String)
  | statsOk (twitterId : String) (stats : Stats) (tokens : Option TokenData)
  | redirect (url : String)
deriving Repr, DecidableEq

/-- Result of one handler run. -/
structure HandlerResult where
  resp : Resp
  db : DB
  calls : List ExtCall
deriving Repr, DecidableEq

/-- The `success` flag computed by the like/retweet handlers' inner
try/catch: `true` when the provider call returned, `false` when it threw. -/
def succeeded : Except String String → Bool
  | .ok _ => true
  | .error _ => false

/-- Environment for one like/retweet handler run: the `findMyUser` lookup
(its optional `data` field), the provider like/retweet call outcome, and
whether each prisma call succeeds. -/
structure ActionEnv where
  findMyUser : Except String (Option TwitterUserData)
  actionResult : Except String String
  dbFindOk : Bool
  dbCreateOk : Bool
deriving Repr

/-- Embedding of the `POST /tweets/like` handler (src/server.ts).  The
provider like call's failure is caught by the inner try/catch and turned
into `success=false` with the error kept as the response `data`; any other
exception reaches the outer catch, which responds `500`.  Reading `.id`
off an absent `findMyUser().data` throws, hence `500`. -/
def likeHandler (clientToken : OAuthToken) (tokenData : Option TokenData)
    (localTwitterId : Option String) (body : ReqBody) (env : ActionEnv)
    (db : DB) : HandlerResult :=
  if truthyStr body.tweetId = false then
    { resp := .httpError 400 "Tweet ID is required", db := db, calls := [] }
  else
    let tweetId := body.tweetId.getD ""
    match env.findMyUser with
    | .error _ =>
      { resp := .httpError 500 "Failed to like tweet", db := db,
        calls := [.whoAmI clientToken.access_token] }
    | .ok none =>
      { resp := .httpError 500 "Failed to like tweet", db := db,
        calls := [.whoAmI clientToken.access_token] }
    | .ok (some tu) =>
      let userId := tu.id
      let success := succeeded env.actionResult
      let likeResponse :=
        match env.actionResult with
        | .ok p => RespData.payload p
        | .error e => RespData.errData e
      let callsSoFar := [ExtCall.whoAmI clientToken.access_token,
                         ExtCall.providerLike clientToken.access_token tweetId]
      if truthyStr localTwitterId = true then
        if env.dbFindOk then
          match userFindFirst db userId with
          | some user =>
            if env.dbCreateOk then
              { resp := .actionOk success likeResponse tokenData,
                db := userActionCreate db
                  { userId := user.id, tweetId := tweetId, action := "like",
                    success := success },
                calls := callsSoFar ++ [.dbFind userId, .dbActionInsert] }
            else
              { resp := .httpError 500 "Failed to like tweet", db := db,
                calls := callsSoFar ++ [.dbFind userId, .dbActionInsert] }
          | none =>
            { resp := .actionOk success likeResponse tokenData, db := db,
              calls := callsSoFar ++ [.dbFind userId] }
        else
          { resp := .httpError 500 "Failed to like tweet", db := db,
            calls := callsSoFar ++ [.dbFind userId] }
      else
        { resp := .actionOk success likeResponse tokenData, db := db,
          calls := callsSoFar }

/-- Embedding of the `POST /tweets/retweet` handler (src/server.ts); same
structure as the like handler, with the retweet provider call, the
`action:'retweet'` log row and its own 500 message. -/
def retweetHandler (clientToken : OAuthToken) (tokenData : Option TokenData)
    (localTwitterId : Option String) (body : ReqBody) (env : ActionEnv)
    (db : DB) : HandlerResult :=
  if truthyStr body.tweetId = false then
    { resp := .httpError 400 "Tweet ID is required", db := db, calls := [] }
  else
    let tweetId := body.tweetId.getD ""
    match env.findMyUser with
    | .error _ =>
      { resp := .httpError 500 "Failed to retweet", db := db,
        calls := [.whoAmI clientToken.access_token] }
    | .ok none =>
      { resp := .httpError 500 "Failed to retweet", db := db,
        calls := [.whoAmI clientToken.access_token] }
    | .ok (some tu) =>
      let userId := tu.id
      let success := succeeded env.actionResult
      let retweetResponse :=
        match env.actionResult with
        | .ok p => RespData.payload p
        | .error e => RespData.errData e
      let callsSoFar := [ExtCall.whoAmI clientToken.access_token,
                         ExtCall.providerRetweet clientToken.access_token tweetId]
      if truthyStr localTwitterId = true then
        if env.dbFindOk then
          match userFindFirst db userId with
          | some user =>
            if env.dbCreateOk then
              { resp := .actionOk success retweetResponse tokenData,
                db := userActionCreate db
                  { userId := user.id, tweetId := tweetId, action := "retweet",
                    success := success },
                calls := callsSoFar ++ [.dbFind userId, .dbActionInsert] }
            else
              { resp := .httpError 500 "Failed to retweet", db := db,
                calls := callsSoFar ++ [.dbFind userId, .dbActionInsert] }
          | none =>
            { resp := .actionOk success retweetResponse tokenData, db := db,
              calls := callsSoFar ++ [.dbFind userId] }
        else
          { resp := .httpError 500 "Failed to retweet", db := db,
            calls := callsSoFar ++ [.dbFind userId] }
      else
        { resp := .actionOk success retweetResponse tokenData, db := db,
          calls := callsSoFar }

/-- Embedding of the `POST /auth/revoke` handler (src/server.ts): one call
to `authClient.revokeAccessToken()`, whose outcome is `env`; no database
access at all. -/
def revokeHandler (clientToken : OAuthToken) (env : Except String String)
    (db : DB) : HandlerResult :=
  match env with
  | .ok r =>
    { resp := .revokeOk true r, db := db,
      calls := [.providerRevoke clientToken.access_token] }
  | .error _ =>
    { resp := .httpError 500 "Failed to revoke token", db := db,
      calls := [.providerRevoke clientToken.access_token] }

/-- Environment for one OAuth callback run: the code-for-token exchange,
the `findMyUser` identity lookup, and whether the `prisma.user.upsert`
succeeds. -/
structure CallbackEnv where
  tokenExchangeResult : Except String OAuthToken
  findMyUser : Except String (Option TwitterUserData)
  dbUpsertOk : Bool
deriving Repr

/-- The front-end redirect URL built by the callback handler. -/
def redirectUrl (frontend : String) (td : TokenData) (twitterId : String) : String :=
  frontend ++ "/auth-success?accessToken=" ++ td.accessToken ++
    "&refreshToken=" ++ td.refreshToken ++
    "&expiresAt=" ++ toString (td.expiresAt.getD 0) ++
    "&twitterId=" ++ twitterId

/-- Embedding of the `GET /auth/callback` handler (src/server.ts).  The
state check runs first, before the token exchange, the identity lookup and
the upsert; any exception after it reaches the catch → `500 Authentication
failed`.  `BigInt(expiresAt)` and `expiresAt.toString()` both throw when
the exchanged token carries no `expires_at`. -/
def callbackHandler (frontend : String) (code state : Option String)
    (env : CallbackEnv) (db : DB) : HandlerResult :=
  if state ≠ some STATE then
    { resp := .httpError 400 "Invalid state parameter", db := db, calls := [] }
  else
    match env.tokenExchangeResult with
    | .error _ =>
      { resp := .httpError 500 "Authentication failed", db := db,
        calls := [.tokenExchange (code.getD "")] }
    | .ok tok =>
      match env.findMyUser with
      | .error _ =>
        { resp := .httpError 500 "Authentication failed", db := db,
          calls := [.tokenExchange (code.getD ""), .whoAmI tok.access_token] }
      | .ok mu =>
        match tok.expires_at with
        | none =>
          { resp := .httpError 500 "Authentication failed", db := db,
            calls := [.tokenExchange (code.getD ""), .whoAmI tok.access_token] }
        | some exp =>
          let td : TokenData :=
            { accessToken := tok.access_token,
              refreshToken := tok.refresh_token.getD "",
              expiresAt := some exp }
          match mu with
          | some tu =>
            if env.dbUpsertOk then
              { resp := .redirect (redirectUrl frontend td tu.id),
                db := userUpsert db tu td.accessToken td.refreshToken exp,
                calls := [.tokenExchange (code.getD ""),
                          .whoAmI tok.access_token, .dbUpsert tu.id] }
            else
              { resp := .httpError 500 "Authentication failed", db := db,
                calls := [.tokenExchange (code.getD ""),
                          .whoAmI tok.access_token, .dbUpsert tu.id] }
          | none =>
            { resp := .redirect (redirectUrl frontend td ""), db := db,
              calls := [.tokenExchange (code.getD ""), .whoAmI tok.access_token] }

/-- The five `prisma.userAction.count` aggregates computed by the
`GET /user/stats` handler for one local user id. -/
def statsOf (db : DB) (uid : Nat) : Stats :=
  { totalActions := (db.actions.filter fun a => a.userId == uid).length
    likes := (db.actions.filter fun a => a.userId == uid && a.action == "like").length
    retweets := (db.actions.filter fun a => a.userId == uid && a.action == "retweet").length
    successful := (db.actions.filter fun a => a.userId == uid && a.success).length
    failed := (db.actions.filter fun a => a.userId == uid && !a.success).length }

/-- Environment for one `GET /user/stats` run. -/
structure StatsEnv where
  findMyUser : Except String (Option TwitterUserData)
  dbFindOk : Bool
  dbCountOk : Bool
deriving Repr

/-- Embedding of the `GET /user/stats` handler (src/server.ts): resolve the
identity with the provider, find the local `User` row (404 when absent),
and return the five action counts. -/
def statsHandler (clientToken : OAuthToken) (tokenData : Option TokenData)
    (env : StatsEnv) (db : DB) : HandlerResult :=
  match env.findMyUser with
  | .error _ =>
    { resp := .httpError 500 "Failed to get user stats", db := db,
      calls := [.whoAmI clientToken.access_token] }
  | .ok none =>
    { resp := .httpError 500 "Failed to get user stats", db := db,
      calls := [.whoAmI clientToken.access_token] }
  | .ok (some tu) =>
    if env.dbFindOk then
      match userFindFirst db tu.id with
      | none =>
        { resp := .httpError 404 "User not found in database", db := db,
          calls := [.whoAmI clientToken.access_token, .dbFind tu.id] }
      | some user =>
        if env.dbCountOk then
          { resp := .statsOk user.twitterId (statsOf db user.id) tokenData,
            db := db,
            calls := [.whoAmI clientToken.access_token, .dbFind tu.id] }
        else
          { resp := .httpError 500 "Failed to get user stats", db := db,
            calls := [.whoAmI clientToken.access_token, .dbFind tu.id] }
    else
      { resp := .httpError 500 "Failed to get user stats", db := db,
        calls := [.whoAmI clientToken.access_token, .dbFind tu.id] }

/-- The database states reachable through the server's request handlers,
starting from a store with no `UserAction` rows (migrations create empty
tables; the optional seed also inserts only `like`/`retweet` rows, covered
by the handler steps below since it matters only for the action log). -/
inductive Reachable : DB → Prop where
  | init (users : List User) : Reachable { users := users, actions := [] }
  | authStep (now : Nat) (body : ReqBody) (env : AuthEnv) (db : DB) :
      Reachable db → Reachable (withAuth now body env db).db
  | likeStep (ct : OAuthToken) (td : Option TokenData) (ltid : Option String)
      (body : ReqBody) (env : ActionEnv) (db : DB) :
      Reachable db → Reachable (likeHandler ct td ltid body env db).db
  | retweetStep (ct : OAuthToken) (td : Option TokenData) (ltid : Option String)
      (body : ReqBody) (env : ActionEnv) (db : DB) :
      Reachable db → Reachable (retweetHandler ct td ltid body env db).db
  | callbackStep (frontend : String) (code state : Option String)
      (env : CallbackEnv) (db : DB) :
      Reachable db → Reachable (callbackHandler frontend code state env db).db
  | revokeStep (ct : OAuthToken) (env : Except String String) (db : DB) :
      Reachable db → Reachable (revokeHandler ct env db).db
  | statsStep (ct : OAuthToken) (td : Option TokenData) (env : StatsEnv) (db : DB) :
      Reachable db → Reachable (statsHandler ct td env db).db

/-- Every row of the action log names one of the two proxied actions. -/
def ActionsWF (db : DB) : Prop :=
  ∀ a ∈ db.actions, a.action = "like" ∨ a.action = "retweet"

/-! ## Claim theorems -/

/-- C4: a request whose body is missing (or carries an empty) access token
or refresh token is rejected by the Token Guard with `401 Authentication
required`, with the database untouched and no outbound provider or database
call made. -/
theorem c4_missing_token_rejects_before_any_call (now : Nat) (body : ReqBody)
    (env : AuthEnv) (db : DB)
    (h : truthyStr body.accessToken = false ∨ truthyStr body.refreshToken = false) :
    withAuth now body env db =
      { outcome := .reject 401 "Authentication required", db := db, calls := [] } := by
  unfold withAuth
  rw [if_pos h]

/-- Witness for C4 at a concrete request with an absent access token. -/
theorem c4_missing_token_rejects_before_any_call_witness :
    withAuth 5
      { accessToken := none, refreshToken := some "tokR", expiresAt := some 1,
        twitterId := some "tw1", tweetId := none }
      { refreshResult := .error "unused", dbUpdateOk := true }
      { users := [], actions := [] } =
      { outcome := .reject 401 "Authentication required",
        db := { users := [], actions := [] }, calls := [] } :=
  c4_missing_token_rejects_before_any_call 5
    { accessToken := none, refreshToken := some "tokR", expiresAt := some 1,
      twitterId := some "tw1", tweetId := none }
    { refreshResult := .error "unused", dbUpdateOk := true }
    { users := [], actions := [] } (by decide)

/-- C7: a callback whose `state` query parameter differs from the fixed
constant `'twitter-auth-state'` gets `400 Invalid state parameter`, with
the store unchanged and no outbound call at all (no token exchange, no
upsert). -/
theorem c7_state_mismatch_no_exchange_no_upsert (frontend : String)
    (code state : Option String) (env : CallbackEnv) (db : DB)
    (h : state ≠ some STATE) :
    callbackHandler frontend code state env db =
      { resp := .httpError 400 "Invalid state parameter", db := db, calls := [] } := by
  unfold callbackHandler
  rw [if_pos h]

/-- Witness for C7 at a concrete wrong-state callback request. -/
theorem c7_state_mismatch_no_exchange_no_upsert_witness :
    callbackHandler "http://localhost:3001" (some "codeX") (some "WRONG")
      { tokenExchangeResult := .error "unused", findMyUser := .error "unused",
        dbUpsertOk := true }
      { users := [], actions := [] } =
      { resp := .httpError 400 "Invalid state parameter",
        db := { users := [], actions := [] }, calls := [] } :=
  c7_state_mismatch_no_exchange_no_upsert "http://localhost:3001"
    (some "codeX") (some "WRONG")
    { tokenExchangeResult := .error "unused", findMyUser := .error "unused",
      dbUpsertOk := true }
    { users := [], actions := [] } (by decide)

/-- C9: the revoke handler leaves the store untouched whatever the revoke
outcome, and its only outbound call is the provider revoke. -/
theorem c9_revoke_touches_no_db (ct : OAuthToken) (env : Except String String)
    (db : DB) :
    (revokeHandler ct env db).db = db ∧
    (revokeHandler ct env db).calls = [.providerRevoke ct.access_token] := by
  cases env <;> exact ⟨rfl, rfl⟩

/-- C8: an `expiresAt` of exactly `0` is falsy, so the Token Guard skips
the expiry comparison entirely: no refresh call is made, no replacement
pair is produced, the store is untouched, and the client handle carries
the originally supplied access token. -/
theorem c8_zero_expiry_treated_as_absent (now : Nat) (body : ReqBody)
    (env : AuthEnv) (db : DB)
    (hA : truthyStr body.accessToken = true)
    (hR : truthyStr body.refreshToken = true)
    (hE : body.expiresAt = some 0) :
    withAuth now body env db =
      { outcome := .proceed
          { access_token := body.accessToken.getD "",
            refresh_token := some (body.refreshToken.getD ""),
            token_type := "bearer", expires_at := some 0 }
          none
          (if truthyStr body.twitterId = true then body.twitterId else none),
        db := db, calls := [] } := by
  unfold withAuth
  rw [if_neg (by simp [hA, hR]), if_neg (by simp [hE, truthyNat])]
  rw [hE]

/-- Witness for C8 at a concrete request carrying `expiresAt = 0`. -/
theorem c8_zero_expiry_treated_as_absent_witness :
    withAuth 10
      { accessToken := some "tokA", refreshToken := some "tokR",
        expiresAt := some 0, twitterId := none, tweetId := none }
      { refreshResult := .ok
          { access_token := "newA", refresh_token := some "newR",
            token_type := "bearer", expires_at := some 99 },
        dbUpdateOk := true }
      { users := [], actions := [] } =
      { outcome := .proceed
          { access_token := "tokA", refresh_token := some "tokR",
            token_type := "bearer", expires_at := some 0 } none none,
        db := { users := [], actions := [] }, calls := [] } :=
  c8_zero_expiry_treated_as_absent 10
    { accessToken := some "tokA", refreshToken := some "tokR",
      expiresAt := some 0, twitterId := none, tweetId := none }
    { refreshResult := .ok
        { access_token := "newA", refresh_token := some "newR",
          token_type := "bearer", expires_at := some 99 },
      dbUpdateOk := true }
    { users := [], actions := [] } (by decide) (by decide) rfl

/-- C1 as stated is false on the code: with non-empty tokens, an expired
`expiresAt`, a successful refresh and a supplied `twitterId`, a failing
`prisma.user.updateMany` is caught by the middleware's catch-all, which
rejects the request with `401 Authentication failed` — the handler chain
does not proceed and the replacement pair is not returned. -/
theorem c1_counterexample_db_failure_aborts :
    (withAuth 10
      { accessToken := some "tokA", refreshToken := some "tokR",
        expiresAt := some 5, twitterId := some "tw1", tweetId := none }
      { refreshResult := .ok
          { access_token := "newA", refresh_token := some "newR",
            token_type := "bearer", expires_at := some 99 },
        dbUpdateOk := false }
      { users := [], actions := [] }).outcome
      = .reject 401 "Authentication failed" := by
  rfl

/-- C1 amended: when a refresh has succeeded and a twitterId was supplied,
a failure of the database persistence of the refreshed pair aborts the
request: the guard responds `401 Authentication failed`, the handler chain
does not proceed, no replacement pair reaches the caller, and the store is
left unchanged. -/
theorem c1_amended_db_failure_aborts_request (now : Nat) (body : ReqBody)
    (env : AuthEnv) (db : DB)
    (hA : truthyStr body.accessToken = true)
    (hR : truthyStr body.refreshToken = true)
    (e : Nat) (hE : body.expiresAt = some e) (he : e ≠ 0) (hnow : e ≤ now)
    (rt : OAuthToken) (hrt : env.refreshResult = .ok rt)
    (hT : truthyStr body.twitterId = true)
    (hDB : env.dbUpdateOk = false) :
    (withAuth now body env db).outcome = .reject 401 "Authentication failed" ∧
    (withAuth now body env db).db = db := by
  unfold withAuth
  rw [if_neg (by simp [hA, hR]),
      if_pos (by simp [hE, truthyNat, he, hnow]), hrt]
  simp only [hT, if_true, hDB]
  cases hre : rt.expires_at <;> simp

/-- Witness for the amended C1 at the concrete counterexample input. -/
theorem c1_amended_db_failure_aborts_request_witness :
    (withAuth 10
      { accessToken := some "tokA", refreshToken := some "tokR",
        expiresAt := some 5, twitterId := some "tw1", tweetId := none }
      { refreshResult := .ok
          { access_token := "newA", refresh_token := some "newR",
            token_type := "bearer", expires_at := some 99 },
        dbUpdateOk := false }
      { users := [{ id := 1, twitterId := "tw1", username := none, name := none,
                    profileImgUrl := none, accessToken := "oldA",
                    refreshToken := "oldR", tokenExpiresAt := 5 }],
        actions := [] }).outcome = .reject 401 "Authentication failed" ∧
    (withAuth 10
      { accessToken := some "tokA", refreshToken := some "tokR",
        expiresAt := some 5, twitterId := some "tw1", tweetId := none }
      { refreshResult := .ok
          { access_token := "newA", refresh_token := some "newR",
            token_type := "bearer", expires_at := some 99 },
        dbUpdateOk := false }
      { users := [{ id := 1, twitterId := "tw1", username := none, name := none,
                    profileImgUrl := none, accessToken := "oldA",
                    refreshToken := "oldR", tokenExpiresAt := 5 }],
        actions := [] }).db =
      { users := [{ id := 1, twitterId := "tw1", username := none, name := none,
                    profileImgUrl := none, accessToken := "oldA",
                    refreshToken := "oldR", tokenExpiresAt := 5 }],
        actions := [] } :=
  c1_amended_db_failure_aborts_request 10
    { accessToken := some "tokA", refreshToken := some "tokR",
      expiresAt := some 5, twitterId := some "tw1", tweetId := none }
    { refreshResult := .ok
        { access_token := "newA", refresh_token := some "newR",
          token_type := "bearer", expires_at := some 99 },
      dbUpdateOk := false }
    { users := [{ id := 1, twitterId := "tw1", username := none, name := none,
                  profileImgUrl := none, accessToken := "oldA",
                  refreshToken := "oldR", tokenExpiresAt := 5 }],
      actions := [] }
    (by decide) (by decide) 5 rfl (by decide) (by decide)
    { access_token := "newA", refresh_token := some "newR",
      token_type := "bearer", expires_at := some 99 } rfl (by decide) rfl

/-- C2 as stated is false on the code at `expiresAt = 0`: epoch-millisecond
`0` is in the past (here `now = 10 ≥ 0`), both tokens are non-empty, yet
`0` is falsy so the guard makes no refresh call and loads the originally
supplied access token into the client handle. -/
theorem c2_counterexample_zero_expiry :
    ((withAuth 10
      { accessToken := some "tokA", refreshToken := some "tokR",
        expiresAt := some 0, twitterId := none, tweetId := none }
      { refreshResult := .ok
          { access_token := "newA", refresh_token := some "newR",
            token_type := "bearer", expires_at := some 99 },
        dbUpdateOk := true }
      { users := [], actions := [] }).calls.filter isRefreshCall).length = 0 ∧
    (withAuth 10
      { accessToken := some "tokA", refreshToken := some "tokR",
        expiresAt := some 0, twitterId := none, tweetId := none }
      { refreshResult := .ok
          { access_token := "newA", refresh_token := some "newR",
            token_type := "bearer", expires_at := some 99 },
        dbUpdateOk := true }
      { users := [], actions := [] }).outcome
      = .proceed { access_token := "tokA", refresh_token := some "tokR",
                   token_type := "bearer", expires_at := some 0 } none none :=
  ⟨rfl, rfl⟩

/-- C2 amended (restricted to a truthy, i.e. non-zero, `expiresAt`): for
every request with non-empty tokens and a non-zero `expiresAt` at or
before the current time, the guard makes exactly one refresh call, and
whenever it proceeds to the downstream handlers the client handle carries
exactly the refreshed token — its access token, not the original one. -/
theorem c2_amended_one_refresh_and_new_token_used (now : Nat) (body : ReqBody)
    (env : AuthEnv) (db : DB)
    (hA : truthyStr body.accessToken = true)
    (hR : truthyStr body.refreshToken = true)
    (e : Nat) (hE : body.expiresAt = some e) (he : e ≠ 0) (hnow : e ≤ now) :
    ((withAuth now body env db).calls.filter isRefreshCall).length = 1 ∧
    (∀ rt, env.refreshResult = .ok rt →
      ∀ ct td ltid, (withAuth now body env db).outcome = .proceed ct td ltid →
        ct = rt) := by
  unfold withAuth
  rw [if_neg (by simp [hA, hR]), if_pos (by simp [hE, truthyNat, he, hnow])]
  cases hres : env.refreshResult with
  | error msg =>
    refine ⟨rfl, ?_⟩
    intro rt hrt
    exact absurd hrt (by simp)
  | ok rt0 =>
    constructor
    · cases hT : truthyStr body.twitterId with
      | false => simp [hT, isRefreshCall]
      | true =>
        cases hre : rt0.expires_at with
        | none => simp [hT, hre, isRefreshCall]
        | some re =>
          cases hDB : env.dbUpdateOk with
          | false => simp [hT, hre, hDB, isRefreshCall]
          | true => simp [hT, hre, hDB, isRefreshCall]
    · intro rt hrt ct td ltid hout
      have hrt' : rt0 = rt := by
        injection hrt
      subst hrt'
      cases hT : truthyStr body.twitterId with
      | false =>
        rw [hT] at hout
        simp only [Bool.false_eq_true, if_false] at hout
        injection hout with h1 _ _
        exact h1.symm ▸ rfl
      | true =>
        rw [hT] at hout
        simp only [if_true] at hout
        cases hre : rt0.expires_at with
        | none =>
          rw [hre] at hout
          exact absurd hout (by simp)
        | some re =>
          rw [hre] at hout
          cases hDB : env.dbUpdateOk with
          | false =>
            rw [hDB] at hout
            exact absurd hout (by simp)
          | true =>
            rw [hDB] at hout
            simp only [if_true] at hout
            injection hout with h1 _ _
            exact h1.symm ▸ rfl

/-- Witness for the amended C2: a concrete expired request where the
refresh succeeds; the trace holds one refresh call and the guard proceeds
with the refreshed token. -/
theorem c2_amended_one_refresh_and_new_token_used_witness :
    ((withAuth 10
      { accessToken := some "tokA", refreshToken := some "tokR",
        expiresAt := some 5, twitterId := none, tweetId := none }
      { refreshResult := .ok
          { access_token := "newA", refresh_token := some "newR",
            token_type := "bearer", expires_at := some 99 },
        dbUpdateOk := true }
      { users := [], actions := [] }).calls.filter isRefreshCall).length = 1 :=
  (c2_amended_one_refresh_and_new_token_used 10
    { accessToken := some "tokA", refreshToken := some "tokR",
      expiresAt := some 5, twitterId := none, tweetId := none }
    { refreshResult := .ok
        { access_token := "newA", refresh_token := some "newR",
          token_type := "bearer", expires_at := some 99 },
      dbUpdateOk := true }
    { users := [], actions := [] }
    (by decide) (by decide) 5 rfl (by decide) (by decide)).1

/-- C3: when the provider's refresh response carries no new refresh token
(absent, or the falsy empty string), the caller's previous refresh token is
retained — in the replacement pair handed back through `res.locals.tokenData`
and in the token fields persisted for every `User` row matching the supplied
twitterId. -/
theorem c3_old_refresh_token_retained (now : Nat) (body : ReqBody)
    (env : AuthEnv) (db : DB)
    (hA : truthyStr body.accessToken = true)
    (hR : truthyStr body.refreshToken = true)
    (e : Nat) (hE : body.expiresAt = some e) (he : e ≠ 0) (hnow : e ≤ now)
    (rt : OAuthToken) (hrt : env.refreshResult = .ok rt)
    (hNoNew : rt.refresh_token = none ∨ rt.refresh_token = some "")
    (hT : truthyStr body.twitterId = true)
    (re : Nat) (hre : rt.expires_at = some re)
    (hDB : env.dbUpdateOk = true) :
    (withAuth now body env db).outcome =
      .proceed rt
        (some { accessToken := rt.access_token,
                refreshToken := body.refreshToken.getD "",
                expiresAt := rt.expires_at }) body.twitterId ∧
    ∀ u ∈ (withAuth now body env db).db.users,
      u.twitterId = body.twitterId.getD "" →
        u.refreshToken = body.refreshToken.getD "" := by
  have hRes : withAuth now body env db =
      { outcome := .proceed rt
          (some { accessToken := rt.access_token,
                  refreshToken := body.refreshToken.getD "",
                  expiresAt := rt.expires_at }) body.twitterId,
        db := userUpdateMany db (body.twitterId.getD "") rt.access_token
                (body.refreshToken.getD "") re,
        calls := [.refreshCall (body.refreshToken.getD ""),
                  .dbUserUpdate (body.twitterId.getD "")] } := by
    unfold withAuth
    rw [if_neg (by simp [hA, hR]), if_pos (by simp [hE, truthyNat, he, hnow]), hrt]
    rcases hNoNew with h | h <;> simp [hT, hre, hDB, h]
  refine ⟨by rw [hRes], ?_⟩
  rw [hRes]
  intro u hu hut
  simp only [userUpdateMany, List.mem_map] at hu
  obtain ⟨u0, hu0, rfl⟩ := hu
  by_cases h0 : u0.twitterId = body.twitterId.getD ""
  · simp [h0]
  · rw [if_neg h0] at hut ⊢
    exact absurd hut h0

/-- Witness for C3: a concrete expired request whose refresh response has
no `refresh_token`; the returned pair and the matching stored row keep the
old refresh token `tokR`. -/
theorem c3_old_refresh_token_retained_witness :
    (withAuth 10
      { accessToken := some "tokA", refreshToken := some "tokR",
        expiresAt := some 5, twitterId := some "tw1", tweetId := none }
      { refreshResult := .ok
          { access_token := "newA", refresh_token := none,
            token_type := "bearer", expires_at := some 99 },
        dbUpdateOk := true }
      { users := [{ id := 1, twitterId := "tw1", username := none, name := none,
                    profileImgUrl := none, accessToken := "oldA",
                    refreshToken := "oldR", tokenExpiresAt := 5 }],
        actions := [] }).outcome =
      .proceed
        { access_token := "newA", refresh_token := none,
          token_type := "bearer", expires_at := some 99 }
        (some { accessToken := "newA", refreshToken := "tokR",
                expiresAt := some 99 }) (some "tw1") :=
  (c3_old_refresh_token_retained 10
    { accessToken := some "tokA", refreshToken := some "tokR",
      expiresAt := some 5, twitterId := some "tw1", tweetId := none }
    { refreshResult := .ok
        { access_token := "newA", refresh_token := none,
          token_type := "bearer", expires_at := some 99 },
      dbUpdateOk := true }
    { users := [{ id := 1, twitterId := "tw1", username := none, name := none,
                  profileImgUrl := none, accessToken := "oldA",
                  refreshToken := "oldR", tokenExpiresAt := 5 }],
      actions := [] }
    (by decide) (by decide) 5 rfl (by decide) (by decide)
    { access_token := "newA", refresh_token := none,
      token_type := "bearer", expires_at := some 99 } rfl (Or.inl rfl)
    (by decide) 99 rfl rfl).1

/-- C5 as stated is false on the code: a like request that passes the
guard (non-empty tokens, no refresh needed) but whose body supplied no
`twitterId` appends no `UserAction` row, even though a local `User` row
matching the provider-resolved external id `u1` exists and every database
call would succeed — the logging block is gated on `res.locals.twitterId`. -/
theorem c5_counterexample_no_twitterid_no_log :
    (withAuth 10
      { accessToken := some "tokA", refreshToken := some "tokR",
        expiresAt := none, twitterId := none, tweetId := some "tw99" }
      { refreshResult := .error "unused", dbUpdateOk := true }
      { users := [{ id := 1, twitterId := "u1", username := none, name := none,
                    profileImgUrl := none, accessToken := "a",
                    refreshToken := "r", tokenExpiresAt := 0 }],
        actions := [] }).outcome =
      .proceed { access_token := "tokA", refresh_token := some "tokR",
                 token_type := "bearer", expires_at := none } none none ∧
    (likeHandler
      { access_token := "tokA", refresh_token := some "tokR",
        token_type := "bearer", expires_at := none } none none
      { accessToken := some "tokA", refreshToken := some "tokR",
        expiresAt := none, twitterId := none, tweetId := some "tw99" }
      { findMyUser := .ok (some { id := "u1", username := none, name := none,
                                  profile_image_url := none }),
        actionResult := .ok "liked", dbFindOk := true, dbCreateOk := true }
      { users := [{ id := 1, twitterId := "u1", username := none, name := none,
                    profileImgUrl := none, accessToken := "a",
                    refreshToken := "r", tokenExpiresAt := 0 }],
        actions := [] }).db.actions = [] :=
  ⟨rfl, rfl⟩

/-- C5 amended (restricted to requests that also supplied a non-empty
`twitterId`, which the guard passes through as `res.locals.twitterId`):
when the local `User` row matching the provider-resolved id exists and the
database calls succeed, the like handler appends exactly one
`action='like'` row and the retweet handler exactly one `action='retweet'`
row, carrying the provider call's success flag, whatever that outcome was. -/
theorem c5_amended_one_action_row_when_twitterid_supplied
    (ct : OAuthToken) (td : Option TokenData) (ltid : Option String)
    (body : ReqBody) (env : ActionEnv) (db : DB)
    (hL : truthyStr ltid = true)
    (hTw : truthyStr body.tweetId = true)
    (tu : TwitterUserData) (hFind : env.findMyUser = .ok (some tu))
    (hDbF : env.dbFindOk = true) (hDbC : env.dbCreateOk = true)
    (user : User) (hUser : userFindFirst db tu.id = some user) :
    (likeHandler ct td ltid body env db).db.actions =
      db.actions ++ [{ userId := user.id, tweetId := body.tweetId.getD "",
                       action := "like",
                       success := succeeded env.actionResult }] ∧
    (retweetHandler ct td ltid body env db).db.actions =
      db.actions ++ [{ userId := user.id, tweetId := body.tweetId.getD "",
                       action := "retweet",
                       success := succeeded env.actionResult }] := by
  constructor
  · unfold likeHandler
    rw [if_neg (by simp [hTw]), hFind]
    simp [hL, hDbF, hUser, hDbC, userActionCreate]
  · unfold retweetHandler
    rw [if_neg (by simp [hTw]), hFind]
    simp [hL, hDbF, hUser, hDbC, userActionCreate]

/-- Witness for the amended C5: a concrete failed like attempt with a
supplied twitterId appends exactly one `action='like'`, `success=false`
row for the matching local user. -/
theorem c5_amended_one_action_row_when_twitterid_supplied_witness :
    (likeHandler
      { access_token := "tokA", refresh_token := some "tokR",
        token_type := "bearer", expires_at := none } none (some "u1")
      { accessToken := some "tokA", refreshToken := some "tokR",
        expiresAt := none, twitterId := some "u1", tweetId := some "tw99" }
      { findMyUser := .ok (some { id := "u1", username := none, name := none,
                                  profile_image_url := none }),
        actionResult := .error "boom", dbFindOk := true, dbCreateOk := true }
      { users := [{ id := 1, twitterId := "u1", username := none, name := none,
                    profileImgUrl := none, accessToken := "a",
                    refreshToken := "r", tokenExpiresAt := 0 }],
        actions := [] }).db.actions =
      [{ userId := 1, tweetId := "tw99", action := "like", success := false }] :=
  (c5_amended_one_action_row_when_twitterid_supplied
    { access_token := "tokA", refresh_token := some "tokR",
      token_type := "bearer", expires_at := none } none (some "u1")
    { accessToken := some "tokA", refreshToken := some "tokR",
      expiresAt := none, twitterId := some "u1", tweetId := some "tw99" }
    { findMyUser := .ok (some { id := "u1", username := none, name := none,
                                profile_image_url := none }),
      actionResult := .error "boom", dbFindOk := true, dbCreateOk := true }
    { users := [{ id := 1, twitterId := "u1", username := none, name := none,
                  profileImgUrl := none, accessToken := "a",
                  refreshToken := "r", tokenExpiresAt := 0 }],
      actions := [] }
    (by decide) (by decide)
    { id := "u1", username := none, name := none, profile_image_url := none }
    rfl rfl rfl
    { id := 1, twitterId := "u1", username := none, name := none,
      profileImgUrl := none, accessToken := "a", refreshToken := "r",
      tokenExpiresAt := 0 } rfl).1

/-- C6: a failure of the provider like/retweet call itself is caught by
the handler's inner try/catch: provided the database calls succeed, the
response is the 200-class action body with `success=false` and the raw
provider error embedded as `data`; a failure elsewhere — here the
`prisma.userAction.create` throwing — instead yields the handler's
500-class response. -/
theorem c6_provider_failure_downgraded_to_success_false
    (ct : OAuthToken) (td : Option TokenData) (ltid : Option String)
    (body : ReqBody) (env : ActionEnv) (db : DB)
    (hTw : truthyStr body.tweetId = true)
    (tu : TwitterUserData) (hFind : env.findMyUser = .ok (some tu))
    (err : String) (hAct : env.actionResult = .error err) :
    ((env.dbFindOk = true → env.dbCreateOk = true →
        (likeHandler ct td ltid body env db).resp =
          .actionOk false (.errData err) td) ∧
      (truthyStr ltid = true → env.dbFindOk = true → env.dbCreateOk = false →
        ∀ user, userFindFirst db tu.id = some user →
          (likeHandler ct td ltid body env db).resp =
            .httpError 500 "Failed to like tweet")) ∧
    ((env.dbFindOk = true → env.dbCreateOk = true →
        (retweetHandler ct td ltid body env db).resp =
          .actionOk false (.errData err) td) ∧
      (truthyStr ltid = true → env.dbFindOk = true → env.dbCreateOk = false →
        ∀ user, userFindFirst db tu.id = some user →
          (retweetHandler ct td ltid body env db).resp =
            .httpError 500 "Failed to retweet")) := by
  constructor
  · constructor
    · intro hDbF hDbC
      unfold likeHandler
      rw [if_neg (by simp [hTw]), hFind]
      cases hL : truthyStr ltid with
      | false => simp [hL, hAct, succeeded]
      | true =>
        cases hU : userFindFirst db tu.id with
        | none => simp [hL, hDbF, hU, hAct, succeeded]
        | some user => simp [hL, hDbF, hU, hDbC, hAct, succeeded]
    · intro hL hDbF hDbC user hU
      unfold likeHandler
      rw [if_neg (by simp [hTw]), hFind]
      simp [hL, hDbF, hU, hDbC]
  · constructor
    · intro hDbF hDbC
      unfold retweetHandler
      rw [if_neg (by simp [hTw]), hFind]
      cases hL : truthyStr ltid with
      | false => simp [hL, hAct, succeeded]
      | true =>
        cases hU : userFindFirst db tu.id with
        | none => simp [hL, hDbF, hU, hAct, succeeded]
        | some user => simp [hL, hDbF, hU, hDbC, hAct, succeeded]
    · intro hL hDbF hDbC user hU
      unfold retweetHandler
      rw [if_neg (by simp [hTw]), hFind]
      simp [hL, hDbF, hU, hDbC]

/-- Witness for C6: a concrete like request whose provider call throws
`rate limited`; the handler still answers with the action body carrying
`success=false` and the raw error as data. -/
theorem c6_provider_failure_downgraded_to_success_false_witness :
    (likeHandler
      { access_token := "tokA", refresh_token := some "tokR",
        token_type := "bearer", expires_at := none } none none
      { accessToken := some "tokA", refreshToken := some "tokR",
        expiresAt := none, twitterId := none, tweetId := some "tw99" }
      { findMyUser := .ok (some { id := "u1", username := none, name := none,
                                  profile_image_url := none }),
        actionResult := .error "rate limited", dbFindOk := true,
        dbCreateOk := true }
      { users := [], actions := [] }).resp =
      .actionOk false (.errData "rate limited") none :=
  (c6_provider_failure_downgraded_to_success_false
    { access_token := "tokA", refresh_token := some "tokR",
      token_type := "bearer", expires_at := none } none none
    { accessToken := some "tokA", refreshToken := some "tokR",
      expiresAt := none, twitterId := none, tweetId := some "tw99" }
    { findMyUser := .ok (some { id := "u1", username := none, name := none,
                                profile_image_url := none }),
      actionResult := .error "rate limited", dbFindOk := true,
      dbCreateOk := true }
    { users := [], actions := [] }
    (by decide)
    { id := "u1", username := none, name := none, profile_image_url := none }
    rfl "rate limited" rfl).1.1 rfl rfl

/-! ## Action-log invariant and the stats identities (C10) -/

/-- The Token Guard never touches the action log (its only write is
`user.updateMany`). -/
theorem withAuth_preserves_actions (now : Nat) (body : ReqBody) (env : AuthEnv)
    (db : DB) : (withAuth now body env db).db.actions = db.actions := by
  unfold withAuth
  repeat' split
  all_goals rfl

/-- The like handler preserves well-formedness of the action log: it
appends at most one row, and that row carries `action='like'`. -/
theorem likeHandler_preserves_wf (ct : OAuthToken) (td : Option TokenData)
    (ltid : Option String) (body : ReqBody) (env : ActionEnv) (db : DB)
    (h : ActionsWF db) : ActionsWF (likeHandler ct td ltid body env db).db := by
  have hshape : (likeHandler ct td ltid body env db).db.actions = db.actions ∨
      ∃ uid, (likeHandler ct td ltid body env db).db.actions =
        db.actions ++ [{ userId := uid, tweetId := body.tweetId.getD "",
                         action := "like",
                         success := succeeded env.actionResult }] := by
    unfold likeHandler
    dsimp only
    repeat' split
    all_goals try (left; rfl)
    all_goals exact Or.inr ⟨_, rfl⟩
  rcases hshape with heq | ⟨uid, heq⟩
  · intro a ha
    rw [heq] at ha
    exact h a ha
  · intro a ha
    rw [heq] at ha
    rcases List.mem_append.mp ha with ha | ha
    · exact h a ha
    · have := List.mem_singleton.mp ha
      subst this
      exact Or.inl rfl

/-- The retweet handler preserves well-formedness of the action log. -/
theorem retweetHandler_preserves_wf (ct : OAuthToken) (td : Option TokenData)
    (ltid : Option String) (body : ReqBody) (env : ActionEnv) (db : DB)
    (h : ActionsWF db) : ActionsWF (retweetHandler ct td ltid body env db).db := by
  have hshape : (retweetHandler ct td ltid body env db).db.actions = db.actions ∨
      ∃ uid, (retweetHandler ct td ltid body env db).db.actions =
        db.actions ++ [{ userId := uid, tweetId := body.tweetId.getD "",
                         action := "retweet",
                         success := succeeded env.actionResult }] := by
    unfold retweetHandler
    dsimp only
    repeat' split
    all_goals try (left; rfl)
    all_goals exact Or.inr ⟨_, rfl⟩
  rcases hshape with heq | ⟨uid, heq⟩
  · intro a ha
    rw [heq] at ha
    exact h a ha
  · intro a ha
    rw [heq] at ha
    rcases List.mem_append.mp ha with ha | ha
    · exact h a ha
    · have := List.mem_singleton.mp ha
      subst this
      exact Or.inr rfl

/-- The callback handler never touches the action log (its only write is
the `User` upsert). -/
theorem callbackHandler_preserves_actions (frontend : String)
    (code state : Option String) (env : CallbackEnv) (db : DB) :
    (callbackHandler frontend code state env db).db.actions = db.actions := by
  unfold callbackHandler userUpsert
  repeat' split
  all_goals rfl

/-- The revoke handler performs no database write at all. -/
theorem revokeHandler_preserves_db (ct : OAuthToken)
    (env : Except String String) (db : DB) :
    (revokeHandler ct env db).db = db := by
  cases env <;> rfl

/-- The stats handler performs no database write at all. -/
theorem statsHandler_preserves_db (ct : OAuthToken) (td : Option TokenData)
    (env : StatsEnv) (db : DB) : (statsHandler ct td env db).db = db := by
  unfold statsHandler
  split
  · rfl
  · rfl
  · split
    · split
      · rfl
      · split <;> rfl
    · rfl

/-- Every reachable store has a well-formed action log: each row names
`like` or `retweet`. -/
theorem reachable_actions_wf (db : DB) (h : Reachable db) : ActionsWF db := by
  induction h with
  | init users => intro a ha; exact absurd ha (List.not_mem_nil a)
  | authStep now body env db hdb ih =>
    intro a ha
    rw [withAuth_preserves_actions] at ha
    exact ih a ha
  | likeStep ct td ltid body env db hdb ih =>
    exact likeHandler_preserves_wf ct td ltid body env db ih
  | retweetStep ct td ltid body env db hdb ih =>
    exact retweetHandler_preserves_wf ct td ltid body env db ih
  | callbackStep frontend code state env db hdb ih =>
    intro a ha
    rw [callbackHandler_preserves_actions] at ha
    exact ih a ha
  | revokeStep ct env db hdb ih =>
    intro a ha
    rw [revokeHandler_preserves_db] at ha
    exact ih a ha
  | statsStep ct td env db hdb ih =>
    intro a ha
    rw [statsHandler_preserves_db] at ha
    exact ih a ha

/-- A per-user action count splits into the like count and the retweet
count once every row names one of the two actions. -/
theorem filter_length_action_partition (l : List UserAction) (uid : Nat)
    (h : ∀ a ∈ l, a.action = "like" ∨ a.action = "retweet") :
    (l.filter fun a => a.userId == uid).length =
      (l.filter fun a => a.userId == uid && a.action == "like").length +
      (l.filter fun a => a.userId == uid && a.action == "retweet").length := by
  induction l with
  | nil => rfl
  | cons a t ih =>
    have ht : ∀ b ∈ t, b.action = "like" ∨ b.action = "retweet" :=
      fun b hb => h b (List.mem_cons_of_mem a hb)
    have ha := h a (List.mem_cons_self a t)
    by_cases hu : a.userId = uid
    · rcases ha with hl | hr
      · simp [List.filter_cons, hu, hl, ih ht]
        omega
      · simp [List.filter_cons, hu, hr, ih ht]
        omega
    · simp [List.filter_cons, hu, ih ht]

/-- A per-user action count splits into the successful count and the
failed count. -/
theorem filter_length_success_partition (l : List UserAction) (uid : Nat) :
    (l.filter fun a => a.userId == uid).length =
      (l.filter fun a => a.userId == uid && a.success).length +
      (l.filter fun a => a.userId == uid && !a.success).length := by
  induction l with
  | nil => rfl
  | cons a t ih =>
    by_cases hu : a.userId = uid
    · cases hs : a.success <;> simp [List.filter_cons, hu, hs, ih] <;> omega
    · simp [List.filter_cons, hu, ih]

/-- C10: in every store reachable through the server's handlers, each
`UserAction` row names `like` or `retweet`, so the counts `/user/stats`
computes satisfy `totalActions = likes + retweets` and
`totalActions = successful + failed` for every local user id. -/
theorem c10_stats_identities (db : DB) (h : Reachable db) (uid : Nat) :
    ActionsWF db ∧
    (statsOf db uid).totalActions = (statsOf db uid).likes + (statsOf db uid).retweets ∧
    (statsOf db uid).totalActions = (statsOf db uid).successful + (statsOf db uid).failed := by
  have hwf := reachable_actions_wf db h
  exact ⟨hwf, filter_length_action_partition db.actions uid hwf,
    filter_length_success_partition db.actions uid⟩

/-- Witness for C10 at a store reached by one successful logged like. -/
theorem c10_stats_identities_witness :
    ActionsWF
      { users := [{ id := 1, twitterId := "u1", username := none, name := none,
                    profileImgUrl := none, accessToken := "a",
                    refreshToken := "r", tokenExpiresAt := 0 }],
        actions := [{ userId := 1, tweetId := "tw99", action := "like",
                      success := true }] } ∧
    (statsOf
      { users := [{ id := 1, twitterId := "u1", username := none, name := none,
                    profileImgUrl := none, accessToken := "a",
                    refreshToken := "r", tokenExpiresAt := 0 }],
        actions := [{ userId := 1, tweetId := "tw99", action := "like",
                      success := true }] } 1).totalActions =
      (statsOf
        { users := [{ id := 1, twitterId := "u1", username := none, name := none,
                      profileImgUrl := none, accessToken := "a",
                      refreshToken := "r", tokenExpiresAt := 0 }],
          actions := [{ userId := 1, tweetId := "tw99", action := "like",
                        success := true }] } 1).likes +
      (statsOf
        { users := [{ id := 1, twitterId := "u1", username := none, name := none,
                      profileImgUrl := none, accessToken := "a",
                      refreshToken := "r", tokenExpiresAt := 0 }],
          actions := [{ userId := 1, tweetId := "tw99", action := "like",
                        success := true }] } 1).retweets ∧
    (statsOf
      { users := [{ id := 1, twitterId := "u1", username := none, name := none,
                    profileImgUrl := none, accessToken := "a",
                    refreshToken := "r", tokenExpiresAt := 0 }],
        actions := [{ userId := 1, tweetId := "tw99", action := "like",
                      success := true }] } 1).totalActions =
      (statsOf
        { users := [{ id := 1, twitterId := "u1", username := none, name := none,
                      profileImgUrl := none, accessToken := "a",
                      refreshToken := "r", tokenExpiresAt := 0 }],
          actions := [{ userId := 1, tweetId := "tw99", action := "like",
                        success := true }] } 1).successful +
      (statsOf
        { users := [{ id := 1, twitterId := "u1", username := none, name := none,
                      profileImgUrl := none, accessToken := "a",
                      refreshToken := "r", tokenExpiresAt := 0 }],
          actions := [{ userId := 1, tweetId := "tw99", action := "like",
                        success := true }] } 1).failed :=
  c10_stats_identities
    { users := [{ id := 1, twitterId := "u1", username := none, name := none,
                  profileImgUrl := none, accessToken := "a",
                  refreshToken := "r", tokenExpiresAt := 0 }],
      actions := [{ userId := 1, tweetId := "tw99", action := "like",
                    success := true }] }
    (Reachable.likeStep
      { access_token := "tokA", refresh_token := some "tokR",
        token_type := "bearer", expires_at := none } none (some "u1")
      { accessToken := some "tokA", refreshToken := some "tokR",
        expiresAt := none, twitterId := some "u1", tweetId := some "tw99" }
      { findMyUser := .ok (some { id := "u1", username := none, name := none,
                                  profile_image_url := none }),
        actionResult := .ok "liked", dbFindOk := true, dbCreateOk := true }
      { users := [{ id := 1, twitterId := "u1", username := none, name := none,
                    profileImgUrl := none, accessToken := "a",
                    refreshToken := "r", tokenExpiresAt := 0 }],
        actions := [] }
      (Reachable.init
        [{ id := 1, twitterId := "u1", username := none, name := none,
           profileImgUrl := none, accessToken := "a", refreshToken := "r",
           tokenExpiresAt := 0 }]))
    1

end PkceTwitter
